import Mathlib

set_option maxRecDepth 10000

/-!
# Verification of the game-of-life show engine

A shallow embedding of the simulation core and show-orchestration loop of
the repository (`game_of_life.py`, `preview.py`, `patterns.py`), together
with theorems settling the specification claims.

Grids are modelled as `List (List Nat)` of 0/1 entries, exactly as the
Python code represents them (lists of lists of ints).  Cell access through
`cell` uses `List.getD` with default 0; all theorems that need it carry
well-formedness hypotheses (64 rows of 64 entries, every entry at most 1),
matching the grids the program actually constructs.  Python `%` on a
possibly negative left operand and positive modulus agrees with `Int.emod`,
and Python `//` agrees with `Int.fdiv`.
-/

namespace GoL

/-- `ROWS` constant from `game_of_life.py`. -/
def ROWS : Nat := 64

/-- `COLS` constant from `game_of_life.py`. -/
def COLS : Nat := 64

/-- `STALE_RESET_GENS` constant from `game_of_life.py`. -/
def STALE_RESET_GENS : Nat := 50

/-- `INITIAL_DENSITY` constant from `game_of_life.py` (the float `0.20`). -/
def INITIAL_DENSITY : ℚ := 0.20

/-- `DISSOLVE_TOTAL_GENS` constant from `game_of_life.py`. -/
def DISSOLVE_TOTAL_GENS : Nat := 12

/-- The vertical position constants `FIND_Y_TOP`, `FIND_Y_BOT`,
`FIND_Y_UPPER_BRIDGE`, `FIND_Y_LOWER_BRIDGE` and the
`DISSOLVE_SCHEDULE` list of `(generation threshold, y offset)` pairs from
`game_of_life.py`. -/
def DISSOLVE_SCHEDULE : List (Nat × Nat) := [(4, 1), (7, 43), (9, 11), (10, 32)]

/-- `CIRCADIAN_STEPS` delay table from `game_of_life.py` (seconds). -/
def CIRCADIAN_STEPS : List ℚ :=
  [0.600, 0.632, 0.674, 0.714, 0.750, 0.800, 0.857, 0.938, 1.034]

/-- `CIRCADIAN_CENTER` constant from `game_of_life.py`. -/
def CIRCADIAN_CENTER : Int := 4

/-- `CIRCADIAN_STRIDE` constant from `game_of_life.py`. -/
def CIRCADIAN_STRIDE : Nat := 8

/-- Reading `grid[r][c]` for in-range indices; out-of-range reads default
to 0 (the theorems restrict attention to well-formed grids where every
access is in range). -/
def cell (g : List (List Nat)) (r c : Nat) : Nat :=
  (g.getD r []).getD c 0

/-- The eight `(dr, dc)` neighbor offsets, in the order the Python double
loop over `(-1, 0, 1) x (-1, 0, 1)` visits them, skipping `(0, 0)`. -/
def neighborOffsets : List (Int × Int) :=
  [(-1, -1), (-1, 0), (-1, 1), (0, -1), (0, 1), (1, -1), (1, 0), (1, 1)]

/-- `count_neighbors(grid, row, col)` from `game_of_life.py`: sums
`grid[(row+dr) % ROWS][(col+dc) % COLS]` over the eight neighbor offsets. -/
def count_neighbors (g : List (List Nat)) (row col : Nat) : Nat :=
  (neighborOffsets.map fun p =>
    cell g ((((row : Int) + p.1) % (ROWS : Int)).toNat)
           ((((col : Int) + p.2) % (COLS : Int)).toNat)).sum

/-- `next_generation(grid)` from `game_of_life.py`: builds a fresh
`ROWS x COLS` grid, applying the standard life rule to each cell.  The
Python truthiness test `if grid[r][c]:` is `cell g r c ≠ 0`. -/
def next_generation (g : List (List Nat)) : List (List Nat) :=
  (List.range ROWS).map fun r =>
    (List.range COLS).map fun c =>
      let n := count_neighbors g r c
      if cell g r c ≠ 0 then (if n = 2 ∨ n = 3 then 1 else 0)
      else (if n = 3 then 1 else 0)

/-- `population(grid)` from `game_of_life.py`: `sum(sum(row) for row in grid)`. -/
def population (g : List (List Nat)) : Nat :=
  (g.map List.sum).sum

/-- `random_grid` from `game_of_life.py` with the module constant
`INITIAL_DENSITY` abstracted as the explicit argument `density`, and the
stream of `random.random()` draws (floats in `[0, 1)`) abstracted as the
function `rands` giving the draw consumed for cell `(r, c)`.  Each cell is
`1 if random.random() < density else 0`. -/
def random_grid_d (density : ℚ) (rands : Nat → Nat → ℚ) : List (List Nat) :=
  (List.range ROWS).map fun r =>
    (List.range COLS).map fun c =>
      if rands r c < density then 1 else 0

/-- `random_grid()` from `game_of_life.py`: `random_grid_d` at the module
constant `INITIAL_DENSITY`. -/
def random_grid (rands : Nat → Nat → ℚ) : List (List Nat) :=
  random_grid_d INITIAL_DENSITY rands

/-- One step of the circadian random walk from `main` in
`game_of_life.py`: add the move, then reflect, `new_pos < 0` going to `1`
and `new_pos >= len(CIRCADIAN_STEPS)` going to `len(CIRCADIAN_STEPS) - 2`. -/
def circadian_step (pos move : Int) : Int :=
  let new_pos := pos + move
  if new_pos < 0 then 1
  else if (CIRCADIAN_STEPS.length : Int) ≤ new_pos then (CIRCADIAN_STEPS.length : Int) - 2
  else new_pos

/-- The circadian index after applying a sequence of random-walk moves,
starting from `CIRCADIAN_CENTER` as `main` does. -/
def circadian_walk (moves : List Int) : Int :=
  moves.foldl circadian_step CIRCADIAN_CENTER

/-! ### The step rule (C1) -/
/-- The toroidal 8-neighbor count as the spec words it: the number of the
eight wrapped neighbor positions that hold a live cell, each axis wrapping
modulo its dimension independently. -/
def toroidal_neighbor_count (g : List (List Nat)) (row col : Nat) : Nat :=
  (neighborOffsets.filter fun p =>
    cell g ((((row : Int) + p.1) % (ROWS : Int)).toNat)
           ((((col : Int) + p.2) % (COLS : Int)).toNat) == 1).length

end GoL

namespace Patterns

/-- `ROWS` constant from `patterns.py`. -/
def ROWS : Nat := 64

/-- `COLS` constant from `patterns.py`. -/
def COLS : Nat := 64

/-- `empty_grid(rows, cols)` from `patterns.py`: `[[0] * cols for _ in range(rows)]`. -/
def empty_grid (rows cols : Nat) : List (List Nat) :=
  List.replicate rows (List.replicate cols 0)

/-- The Python assignment `grid[i][j] = 1`; out-of-range indices leave the
grid unchanged, matching `List.set`. -/
def setCell (g : List (List Nat)) (i j : Nat) : List (List Nat) :=
  g.set i ((g.getD i []).set j 1)

/-- `place_pattern(grid, pattern, row_offset, col_offset)` from
`patterns.py`: for each `(dr, dc)` in the pattern, set
`grid[(row_offset + dr) % rows][(col_offset + dc) % cols] = 1`, with
`rows`/`cols` read from the grid once before the loop.  Python `%` on
ints with a positive right operand is `Int.emod`. -/
def place_pattern (grid : List (List Nat)) (pattern : List (Int × Int))
    (row_offset col_offset : Int) : List (List Nat) :=
  let rows := grid.length
  let cols := (grid.headD []).length
  pattern.foldl (fun g p =>
    setCell g (((row_offset + p.1) % (rows : Int)).toNat)
              (((col_offset + p.2) % (cols : Int)).toNat)) grid

/-- `BLOCK` from `patterns.py`. -/
def BLOCK : List (Int × Int) := [(0, 0), (0, 1), (1, 0), (1, 1)]

/-- `BEEHIVE` from `patterns.py`. -/
def BEEHIVE : List (Int × Int) := [(0, 1), (0, 2), (1, 0), (1, 3), (2, 1), (2, 2)]

/-- `LOAF` from `patterns.py`. -/
def LOAF : List (Int × Int) := [(0, 1), (0, 2), (1, 0), (1, 3), (2, 1), (2, 3), (3, 2)]

/-- `BOAT` from `patterns.py`. -/
def BOAT : List (Int × Int) := [(0, 0), (0, 1), (1, 0), (1, 2), (2, 1)]

/-- `TUB` from `patterns.py`. -/
def TUB : List (Int × Int) := [(0, 1), (1, 0), (1, 2), (2, 1)]

/-- `BLINKER` from `patterns.py`. -/
def BLINKER : List (Int × Int) := [(0, 0), (0, 1), (0, 2)]

/-- `TOAD` from `patterns.py`. -/
def TOAD : List (Int × Int) := [(0, 1), (0, 2), (0, 3), (1, 0), (1, 1), (1, 2)]

/-- `BEACON` from `patterns.py`. -/
def BEACON : List (Int × Int) := [(0, 0), (0, 1), (1, 0), (2, 3), (3, 2), (3, 3)]

/-- `PULSAR` from `patterns.py`. -/
def PULSAR : List (Int × Int) :=
  [(0, 2), (0, 3), (0, 4), (0, 8), (0, 9), (0, 10),
   (2, 0), (2, 5), (2, 7), (2, 12),
   (3, 0), (3, 5), (3, 7), (3, 12),
   (4, 0), (4, 5), (4, 7), (4, 12),
   (5, 2), (5, 3), (5, 4), (5, 8), (5, 9), (5, 10),
   (7, 2), (7, 3), (7, 4), (7, 8), (7, 9), (7, 10),
   (8, 0), (8, 5), (8, 7), (8, 12),
   (9, 0), (9, 5), (9, 7), (9, 12),
   (10, 0), (10, 5), (10, 7), (10, 12),
   (12, 2), (12, 3), (12, 4), (12, 8), (12, 9), (12, 10)]

/-- `PENTADECATHLON` from `patterns.py`. -/
def PENTADECATHLON : List (Int × Int) :=
  [(0, 1), (1, 1), (2, 0), (2, 2), (3, 1), (4, 1),
   (5, 1), (6, 1), (7, 0), (7, 2), (8, 1), (9, 1)]

/-- `GLIDER` from `patterns.py`. -/
def GLIDER : List (Int × Int) := [(0, 1), (1, 2), (2, 0), (2, 1), (2, 2)]

/-- `LWSS` from `patterns.py`. -/
def LWSS : List (Int × Int) :=
  [(0, 1), (0, 4), (1, 0), (2, 0), (2, 4), (3, 0), (3, 1), (3, 2), (3, 3)]

/-- `MWSS` from `patterns.py`. -/
def MWSS : List (Int × Int) :=
  [(0, 2), (1, 0), (1, 4), (2, 5), (3, 0), (3, 5),
   (4, 1), (4, 2), (4, 3), (4, 4), (4, 5)]

/-- `HWSS` from `patterns.py`. -/
def HWSS : List (Int × Int) :=
  [(0, 2), (0, 3), (1, 0), (1, 5), (2, 6), (3, 0), (3, 6),
   (4, 1), (4, 2), (4, 3), (4, 4), (4, 5), (4, 6)]

/-- `GOSPER_GLIDER_GUN` from `patterns.py`. -/
def GOSPER_GLIDER_GUN : List (Int × Int) :=
  [(0, 24),
   (1, 22), (1, 24),
   (2, 12), (2, 13), (2, 20), (2, 21), (2, 34), (2, 35),
   (3, 11), (3, 15), (3, 20), (3, 21), (3, 34), (3, 35),
   (4, 0), (4, 1), (4, 10), (4, 16), (4, 20), (4, 21),
   (5, 0), (5, 1), (5, 10), (5, 14), (5, 16), (5, 17), (5, 22), (5, 24),
   (6, 10), (6, 16), (6, 24),
   (7, 11), (7, 15),
   (8, 12), (8, 13)]

/-- `R_PENTOMINO` from `patterns.py`. -/
def R_PENTOMINO : List (Int × Int) := [(0, 1), (0, 2), (1, 0), (1, 1), (2, 1)]

/-- `DIEHARD` from `patterns.py`. -/
def DIEHARD : List (Int × Int) :=
  [(0, 6), (1, 0), (1, 1), (2, 1), (2, 5), (2, 6), (2, 7)]

/-- `ACORN` from `patterns.py`. -/
def ACORN : List (Int × Int) :=
  [(0, 1), (1, 3), (2, 0), (2, 1), (2, 4), (2, 5), (2, 6)]

/-- The `PATTERNS` catalog dict from `patterns.py`, as an association
list in the source's insertion order. -/
def PATTERNS : List (String × List (Int × Int)) :=
  [("block", BLOCK), ("beehive", BEEHIVE), ("loaf", LOAF), ("boat", BOAT),
   ("tub", TUB),
   ("blinker", BLINKER), ("toad", TOAD), ("beacon", BEACON),
   ("pulsar", PULSAR), ("pentadecathlon", PENTADECATHLON),
   ("glider", GLIDER), ("lwss", LWSS), ("mwss", MWSS), ("hwss", HWSS),
   ("gosper_glider_gun", GOSPER_GLIDER_GUN),
   ("r_pentomino", R_PENTOMINO), ("diehard", DIEHARD), ("acorn", ACORN)]

/-- The keys of the catalog, in insertion order. -/
def patternNames : List String := PATTERNS.map Prod.fst

/-- Insert a string into an already sorted list (lexicographic order on
code points, the order Python's `sorted` uses on these distinct keys). -/
def insertSorted (s : String) : List String → List String
  | [] => [s]
  | t :: ts => if s ≤ t then s :: t :: ts else t :: insertSorted s ts

/-- Insertion sort on strings, modelling Python's `sorted`. -/
def sortStrings : List String → List String
  | [] => []
  | s :: ss => insertSorted s (sortStrings ss)

/-- Python's `max` over a nonempty sequence of ints (all catalog patterns
are nonempty). -/
def listMax (l : List Int) : Int :=
  l.foldl max (l.headD 0)

/-- The comma-joined sorted name list interpolated into the error
message. -/
def availableNames : String :=
  String.intercalate ", " (sortStrings patternNames)

/-- The message of the `ValueError` raised by `load_pattern`:
`f"Unknown pattern '{name}'. Available: {available}"` with `available`
the comma-joined sorted key list. -/
def unknownMessage (name : String) : String :=
  "Unknown pattern '" ++ name ++ "'. Available: " ++ availableNames

/-- `load_pattern(name, rows, cols, row_offset, col_offset)` from
`patterns.py`.  The Python function raises `ValueError` for an unknown
name, modelled as `Except.error` carrying the message; `None` offsets
default to centering offsets computed from the pattern bounding box with
Python floor division `//` (`Int.fdiv`).  The model is total, so it is
faithful only for positive `rows` and `cols`: at `rows = 0` or
`cols = 0` the Python code raises IndexError or ZeroDivisionError inside
`place_pattern`; theorems about this function carry `0 < rows` and
`0 < cols` hypotheses accordingly. -/
def load_pattern (name : String) (rows cols : Nat)
    (row_offset col_offset : Option Int) : Except String (List (List Nat)) :=
  match List.lookup name PATTERNS with
  | none => .error (unknownMessage name)
  | some pattern =>
      let grid := empty_grid rows cols
      let max_r := listMax (pattern.map Prod.fst)
      let max_c := listMax (pattern.map Prod.snd)
      let ro := row_offset.getD (((rows : Int) - max_r).fdiv 2)
      let co := col_offset.getD (((cols : Int) - max_c).fdiv 2)
      .ok (place_pattern grid pattern ro co)

end Patterns

namespace Show

open GoL

/-- The pixel coordinates at which a bitmap is live, row-major. -/
def bitmapPixels (bm : List (List Nat)) : List (Nat × Nat) :=
  (List.range bm.length).flatMap fun i =>
    (List.range (bm.getD i []).length).filterMap fun j =>
      if (bm.getD i []).getD j 0 ≠ 0 then some (i, j) else none

/-- Modelled from the spec: `overlay_bitmap_to_grid` is imported from
`bubble_font` and is not among the repository sources.  Per the spec it
"mutates grid in place, setting a cell live wherever the bitmap has a live
pixel at that offset (boolean OR); never clears a cell", and bitmap pixels
that fall outside the grid are dropped silently (geometry edge cases are
not errors).  Each live bitmap pixel `(i, j)` sets grid cell
`(y_offset + i, x_offset + j)` live when that cell is on the grid. -/
def overlay_bitmap_to_grid (bitmap grid : List (List Nat))
    (x_offset y_offset : Int) : List (List Nat) :=
  (bitmapPixels bitmap).foldl (fun g q =>
    let py := y_offset + (q.1 : Int)
    let px := x_offset + (q.2 : Int)
    if 0 ≤ py ∧ py < (g.length : Int) ∧ 0 ≤ px ∧
        px < ((g.getD py.toNat []).length : Int)
    then Patterns.setCell g py.toNat px.toNat
    else g) grid

/-- The mutable loop state of `main` in `game_of_life.py` (the variables
`grid`, `gen_count`, `stale_count`, `last_pop`, `dissolving`,
`dissolve_phase`, `circadian_pos`). -/
structure ShowState where
  grid : List (List Nat)
  gen_count : Nat
  stale_count : Nat
  last_pop : Nat
  dissolving : Bool
  dissolve_phase : Nat
  circadian_pos : Int

/-- The `if dissolving:` block of the loop body, parameterized by the
schedule and total-generation constants (the two script variants differ
only in those).  Returns the updated
`(dissolving, dissolve_phase, stale_count, grid)`. -/
def dissolveUpdate (schedule : List (Nat × Nat)) (total : Nat)
    (bm : List (List Nat)) (dissolving : Bool) (phase gen stale1 : Nat)
    (grid1 : List (List Nat)) : Bool × Nat × Nat × List (List Nat) :=
  if dissolving then
    if phase - 1 < schedule.length ∧ (schedule.getD (phase - 1) (0, 0)).1 ≤ gen then
      (true, phase + 1, 0,
        overlay_bitmap_to_grid bm grid1 0 ((schedule.getD (phase - 1) (0, 0)).2 : Int))
    else if schedule.length ≤ phase - 1 ∧ total ≤ gen then
      (false, phase, 0, grid1)
    else (true, phase, stale1, grid1)
  else (false, phase, stale1, grid1)

/-- One iteration of the `while True:` loop body of `main` in
`game_of_life.py`: step the grid, bump the generation counter, update the
staleness counter against the previous population, run the dissolve
schedule, and — only once no longer dissolving — reseed on staleness or
extinction and advance the circadian walk every `CIRCADIAN_STRIDE`
generations.  `bm` is the rasterized last word (produced by the external
`text_to_bitmap`), `move` the `random.choice([-1, 0, 1])` draw and
`rands` the `random.random()` draws a reseed would consume. -/
def tick (bm : List (List Nat)) (move : Int) (rands : Nat → Nat → ℚ)
    (s : ShowState) : ShowState :=
  let grid1 := next_generation s.grid
  let gen := s.gen_count + 1
  let pop := population grid1
  let stale1 := if pop = s.last_pop then s.stale_count + 1 else 0
  let d := dissolveUpdate DISSOLVE_SCHEDULE DISSOLVE_TOTAL_GENS bm
    s.dissolving s.dissolve_phase gen stale1 grid1
  { grid := if d.1 then d.2.2.2
      else if STALE_RESET_GENS ≤ d.2.2.1 ∨ pop = 0 then random_grid rands
      else d.2.2.2,
    gen_count := gen,
    stale_count := if d.1 then d.2.2.1
      else if STALE_RESET_GENS ≤ d.2.2.1 ∨ pop = 0 then 0 else d.2.2.1,
    last_pop := pop,
    dissolving := d.1,
    dissolve_phase := d.2.1,
    circadian_pos := if d.1 then s.circadian_pos
      else if gen % CIRCADIAN_STRIDE = 0 then circadian_step s.circadian_pos move
      else s.circadian_pos }

/-- The state after `n` loop iterations, starting as `main` does when the
dissolve begins: generation 0, staleness 0, previous population 0,
dissolving, phase 1, circadian index at the center.  `g0` is the seed grid
from the dawn transition, `moves` and `rands` the successive random draws. -/
def run (g0 bm : List (List Nat)) (moves : Nat → Int)
    (rands : Nat → Nat → Nat → ℚ) : Nat → ShowState
  | 0 => { grid := g0, gen_count := 0, stale_count := 0, last_pop := 0,
           dissolving := true, dissolve_phase := 1,
           circadian_pos := CIRCADIAN_CENTER }
  | n + 1 => tick bm (moves n) (rands n) (run g0 bm moves rands n)

/-- Ghost projection: the `(dissolving, dissolve_phase)` pair evolves
deterministically, depending only on the generation counter. -/
def dStep (p : Bool × Nat) (gen : Nat) : Bool × Nat :=
  if p.1 then
    if p.2 - 1 < DISSOLVE_SCHEDULE.length ∧
        (DISSOLVE_SCHEDULE.getD (p.2 - 1) (0, 0)).1 ≤ gen then (true, p.2 + 1)
    else if DISSOLVE_SCHEDULE.length ≤ p.2 - 1 ∧ DISSOLVE_TOTAL_GENS ≤ gen then
      (false, p.2)
    else p
  else p

/-- The deterministic `(dissolving, dissolve_phase)` trajectory. -/
def dRun : Nat → Bool × Nat
  | 0 => (true, 1)
  | n + 1 => dStep (dRun n) (n + 1)

end Show

namespace Preview

open GoL Show

/-- `DISSOLVE_PHASE_GENS` constant from `preview.py`. -/
def DISSOLVE_PHASE_GENS : Nat := 4

/-- `DISSOLVE_TOTAL_GENS` constant from `preview.py`. -/
def DISSOLVE_TOTAL_GENS : Nat := 20

/-- `DISSOLVE_SCHEDULE` from `preview.py`: thresholds are multiples of
`DISSOLVE_PHASE_GENS`, the y offsets the same `FIND_Y_*` constants. -/
def DISSOLVE_SCHEDULE : List (Nat × Nat) :=
  [(DISSOLVE_PHASE_GENS * 1, 1), (DISSOLVE_PHASE_GENS * 2, 43),
   (DISSOLVE_PHASE_GENS * 3, 11), (DISSOLVE_PHASE_GENS * 4, 32)]

/-- `GameOfLife.simulation_step` from `preview.py`: identical to the
hardware loop body except for its dissolve constants and that the
circadian random-walk block is NOT guarded by `if not self.dissolving:` —
it runs every `CIRCADIAN_STRIDE` generations in every phase. -/
def simulation_step (bm : List (List Nat)) (move : Int)
    (rands : Nat → Nat → ℚ) (s : ShowState) : ShowState :=
  let grid1 := next_generation s.grid
  let gen := s.gen_count + 1
  let pop := population grid1
  let stale1 := if pop = s.last_pop then s.stale_count + 1 else 0
  let d := dissolveUpdate DISSOLVE_SCHEDULE DISSOLVE_TOTAL_GENS bm
    s.dissolving s.dissolve_phase gen stale1 grid1
  let r : List (List Nat) × Nat :=
    if d.1 then (d.2.2.2, d.2.2.1)
    else if STALE_RESET_GENS ≤ d.2.2.1 ∨ pop = 0 then (random_grid rands, 0)
    else (d.2.2.2, d.2.2.1)
  { grid := r.1, gen_count := gen, stale_count := r.2, last_pop := pop,
    dissolving := d.1, dissolve_phase := d.2.1,
    circadian_pos := if gen % CIRCADIAN_STRIDE = 0
      then circadian_step s.circadian_pos move else s.circadian_pos }

end Preview

namespace Glider

open GoL Patterns

/-- The glider's live cells after one generation (as a placement list). -/
def gliderGen1 : List (List Nat) :=
  place_pattern (empty_grid GoL.ROWS GoL.COLS)
    [(1, 0), (1, 2), (2, 1), (2, 2), (3, 1)] 0 0

/-- The glider's live cells after two generations. -/
def gliderGen2 : List (List Nat) :=
  place_pattern (empty_grid GoL.ROWS GoL.COLS)
    [(1, 2), (2, 0), (2, 2), (3, 1), (3, 2)] 0 0

/-- The glider's live cells after three generations. -/
def gliderGen3 : List (List Nat) :=
  place_pattern (empty_grid GoL.ROWS GoL.COLS)
    [(1, 1), (2, 2), (2, 3), (3, 1), (3, 2)] 0 0

end Glider

namespace GoL

theorem circadian_step_nonneg (pos move : Int) : 0 ≤ circadian_step pos move := by
  unfold circadian_step
  simp only [CIRCADIAN_STEPS, List.length_cons, List.length_nil]
  split
  · omega
  · split <;> omega

theorem circadian_step_le (pos move : Int) :
    circadian_step pos move ≤ (CIRCADIAN_STEPS.length : Int) - 1 := by
  unfold circadian_step
  simp only [CIRCADIAN_STEPS, List.length_cons, List.length_nil]
  split
  · omega
  · split <;> omega

theorem circadian_walk_foldl_bounds (moves : List Int) :
    ∀ pos : Int, 0 ≤ pos → pos ≤ (CIRCADIAN_STEPS.length : Int) - 1 →
      0 ≤ moves.foldl circadian_step pos ∧
        moves.foldl circadian_step pos ≤ (CIRCADIAN_STEPS.length : Int) - 1 := by
  induction moves with
  | nil => intro pos h0 h1; exact ⟨h0, h1⟩
  | cons m ms ih =>
      intro pos _ _
      simpa using ih (circadian_step pos m) (circadian_step_nonneg pos m)
        (circadian_step_le pos m)

/-- C3: the circadian (TimingController) index stays in
`[0, tableLength - 1]` after every sequence of random-walk steps starting
from the center index. -/
theorem circadian_index_in_bounds (moves : List Int) :
    0 ≤ circadian_walk moves ∧
      circadian_walk moves ≤ (CIRCADIAN_STEPS.length : Int) - 1 := by
  unfold circadian_walk
  exact circadian_walk_foldl_bounds moves CIRCADIAN_CENTER (by decide)
    (by simp [CIRCADIAN_STEPS, CIRCADIAN_CENTER])

theorem cell_le_one {g : List (List Nat)}
    (h01 : ∀ row ∈ g, ∀ v ∈ row, v ≤ 1) (a b : Nat) : cell g a b ≤ 1 := by
  unfold cell
  rw [List.getD_eq_getElem?_getD, List.getD_eq_getElem?_getD]
  cases hg : g[a]? with
  | none => simp
  | some row =>
      cases hb : row[b]? with
      | none => simp [hg, hb]
      | some v =>
          have hrm : row ∈ g := List.getElem?_mem hg
          have hvm : v ∈ row := List.getElem?_mem hb
          simpa [hg, hb] using h01 row hrm v hvm

theorem sum_eq_length_filter_one (l : List Nat) (h : ∀ x ∈ l, x ≤ 1) :
    l.sum = (l.filter fun x => x == 1).length := by
  induction l with
  | nil => simp
  | cons x xs ih =>
      have hx : x ≤ 1 := h x (List.mem_cons_self x xs)
      have ih' := ih fun y hy => h y (List.mem_cons_of_mem x hy)
      interval_cases x
      · simp [List.filter_cons, ih']
      · simp [List.filter_cons, ih']
        omega

theorem count_neighbors_eq_toroidal (g : List (List Nat))
    (h01 : ∀ row ∈ g, ∀ v ∈ row, v ≤ 1) (row col : Nat) :
    count_neighbors g row col = toroidal_neighbor_count g row col := by
  unfold count_neighbors toroidal_neighbor_count
  have hb : ∀ x ∈ (neighborOffsets.map fun p =>
      cell g ((((row : Int) + p.1) % (ROWS : Int)).toNat)
             ((((col : Int) + p.2) % (COLS : Int)).toNat)), x ≤ 1 := by
    intro x hx
    simp only [List.mem_map] at hx
    obtain ⟨p, _, rfl⟩ := hx
    exact cell_le_one h01 _ _
  rw [sum_eq_length_filter_one _ hb, List.filter_map, List.length_map]
  rfl

/-- C1: each cell of `next_generation g` is computed from the toroidal
8-neighbor count of the input grid by the standard rule: a live cell with
2 or 3 live neighbors stays live, a dead cell with exactly 3 live
neighbors becomes live, and every other cell is dead.  The hypothesis says
the grid holds only 0/1 entries, as every grid the program builds does;
`next_generation` is a pure function of its argument, so the input grid is
unchanged. -/
theorem next_generation_rule (g : List (List Nat))
    (h01 : ∀ row ∈ g, ∀ v ∈ row, v ≤ 1)
    (r c : Nat) (hr : r < ROWS) (hc : c < COLS) :
    cell (next_generation g) r c =
      (if (cell g r c = 1 ∧
            (toroidal_neighbor_count g r c = 2 ∨ toroidal_neighbor_count g r c = 3))
          ∨ (cell g r c = 0 ∧ toroidal_neighbor_count g r c = 3)
       then 1 else 0) := by
  have hmap : ∀ {α : Type} (f : Nat → α) (n i : Nat), i < n → ∀ d : α,
      ((List.range n).map f).getD i d = f i := by
    intro α f n i hi d
    rw [List.getD_eq_getElem?_getD, List.getElem?_map, List.getElem?_range hi]
    rfl
  have hcell : cell (next_generation g) r c =
      (let n := count_neighbors g r c
       if cell g r c ≠ 0 then (if n = 2 ∨ n = 3 then 1 else 0)
       else (if n = 3 then 1 else 0)) := by
    unfold cell next_generation
    rw [hmap _ ROWS r hr]
    simp only
    rw [hmap _ COLS c hc]
    rfl
  rw [hcell, count_neighbors_eq_toroidal g h01]
  have hle : cell g r c ≤ 1 := cell_le_one h01 r c
  interval_cases h : cell g r c <;>
    · simp only [h]
      split <;> split <;> simp_all <;> omega

/-! ### Random seeding (C8) -/
/-- C8: a grid seeded with density 0 has population 0, and one seeded with
density 1 has population `ROWS * COLS`, for every random source drawing
values in `[0, 1)` as `random.random()` does.  Each cell of
`random_grid_d density rands` is live exactly when its own draw is below
`density`, so cells are decided independently of one another. -/
theorem random_grid_density_extremes (rands : Nat → Nat → ℚ)
    (h : ∀ r c, 0 ≤ rands r c ∧ rands r c < 1) :
    population (random_grid_d 0 rands) = 0 ∧
      population (random_grid_d 1 rands) = ROWS * COLS := by
  constructor
  · unfold population random_grid_d
    rw [List.map_map]
    apply List.sum_eq_zero
    intro x hx
    simp only [List.mem_map, Function.comp] at hx
    obtain ⟨r, _, rfl⟩ := hx
    apply List.sum_eq_zero
    intro y hy
    simp only [List.mem_map] at hy
    obtain ⟨c, _, rfl⟩ := hy
    simp [not_lt.mpr (h r c).1]
  · unfold population random_grid_d
    rw [List.map_map]
    have hrow : ∀ r : Nat,
        (List.sum ∘ fun r => (List.range COLS).map fun c =>
          if rands r c < 1 then 1 else 0) r = COLS := by
      intro r
      simp only [Function.comp]
      rw [show ((List.range COLS).map fun c =>
            if rands r c < 1 then (1 : Nat) else 0) =
          (List.range COLS).map (fun _ => (1 : Nat)) from
        List.map_inj_left.2 (by intro c _; simp [(h r c).2])]
      simp [List.map_const', List.sum_replicate]
    rw [show ((List.range ROWS).map (List.sum ∘ fun r =>
          (List.range COLS).map fun c => if rands r c < 1 then (1 : Nat) else 0)) =
        (List.range ROWS).map (fun _ => COLS) from
      List.map_inj_left.2 (by intro r _; exact hrow r)]
    simp [List.map_const', List.sum_replicate, Nat.mul_comm]

/-- Witness for C8 at the constant random source `1/2`. -/
theorem random_grid_density_extremes_witness :
    population (random_grid_d 0 fun _ _ => (1 : ℚ) / 2) = 0 ∧
      population (random_grid_d 1 fun _ _ => (1 : ℚ) / 2) = ROWS * COLS :=
  random_grid_density_extremes (fun _ _ => (1 : ℚ) / 2)
    (fun _ _ => by norm_num)

/-- Witness for C1 on the all-dead well-formed grid at cell `(0, 0)`. -/
theorem next_generation_rule_witness :
    cell (next_generation (List.replicate ROWS (List.replicate COLS 0))) 0 0 =
      (if (cell (List.replicate ROWS (List.replicate COLS 0)) 0 0 = 1 ∧
            (toroidal_neighbor_count (List.replicate ROWS (List.replicate COLS 0)) 0 0 = 2 ∨
             toroidal_neighbor_count (List.replicate ROWS (List.replicate COLS 0)) 0 0 = 3))
          ∨ (cell (List.replicate ROWS (List.replicate COLS 0)) 0 0 = 0 ∧
             toroidal_neighbor_count (List.replicate ROWS (List.replicate COLS 0)) 0 0 = 3)
       then 1 else 0) :=
  next_generation_rule _
    (by intro row hrow v hv
        rw [List.eq_of_mem_replicate hrow] at hv
        rw [List.eq_of_mem_replicate hv]
        exact Nat.zero_le 1)
    0 0 (by decide) (by decide)

end GoL

namespace Patterns

/-! ### Toroidal placement (C10) -/
theorem length_setCell (g : List (List Nat)) (a b : Nat) :
    (setCell g a b).length = g.length := by
  unfold setCell
  exact List.length_set g a _

theorem getD_mem_of_lt {g : List (List Nat)} {a : Nat} (ha : a < g.length) :
    g.getD a [] ∈ g := by
  rw [List.getD_eq_getElem?_getD, List.getElem?_eq_getElem ha]
  exact List.getElem_mem ha

theorem rowlen_setCell {g : List (List Nat)} {C : Nat}
    (hC : ∀ row ∈ g, row.length = C) {a : Nat} (ha : a < g.length) (b : Nat) :
    ∀ row ∈ setCell g a b, row.length = C := by
  intro row hrow
  rcases List.mem_or_eq_of_mem_set hrow with h | h
  · exact hC row h
  · subst h
    rw [List.length_set]
    exact hC _ (getD_mem_of_lt ha)

theorem cell_setCell (g : List (List Nat)) {a : Nat} (b : Nat)
    (ha : a < g.length) (hb : b < (g.getD a []).length) (i j : Nat) :
    GoL.cell (setCell g a b) i j =
      if a = i ∧ b = j then 1 else GoL.cell g i j := by
  unfold GoL.cell setCell
  rw [List.getD_eq_getElem?_getD, List.getElem?_eq_getElem ha] at hb
  simp only [Option.getD_some] at hb
  simp only [List.getD_eq_getElem?_getD]
  by_cases hai : a = i
  · subst hai
    by_cases hbj : b = j
    · subst hbj
      simp [List.getElem?_set, ha, hb, List.getElem?_eq_getElem]
    · simp [List.getElem?_set, ha, hbj, List.getElem?_eq_getElem]
  · simp [List.getElem?_set, hai]

theorem place_fold (ro co : Int) (R C : Nat) (hR0 : 0 < R) (hC0 : 0 < C) :
    ∀ (pattern : List (Int × Int)) (grid : List (List Nat)),
      grid.length = R → (∀ row ∈ grid, row.length = C) → ∀ i j : Nat,
      GoL.cell (pattern.foldl (fun g p =>
          setCell g ((ro + p.1) % (R : Int)).toNat
                    ((co + p.2) % (C : Int)).toNat) grid) i j =
        if ∃ p ∈ pattern, ((ro + p.1) % (R : Int)).toNat = i ∧
            ((co + p.2) % (C : Int)).toNat = j
        then 1 else GoL.cell grid i j := by
  intro pattern
  induction pattern with
  | nil => intro grid _ _ i j; simp
  | cons p ps ih =>
      intro grid hR hC i j
      have hRz : (R : Int) ≠ 0 := by omega
      have haR : ((ro + p.1) % (R : Int)).toNat < R := by
        have h1 := Int.emod_nonneg (ro + p.1) hRz
        have h2 := Int.emod_lt_of_pos (ro + p.1) (by omega : (0 : Int) < (R : Int))
        omega
      have hbC : ((co + p.2) % (C : Int)).toNat < C := by
        have h1 := Int.emod_nonneg (co + p.2) (by omega : (C : Int) ≠ 0)
        have h2 := Int.emod_lt_of_pos (co + p.2) (by omega : (0 : Int) < (C : Int))
        omega
      have ha : ((ro + p.1) % (R : Int)).toNat < grid.length := by omega
      have hb : ((co + p.2) % (C : Int)).toNat <
          (grid.getD ((ro + p.1) % (R : Int)).toNat []).length := by
        rw [hC _ (getD_mem_of_lt ha)]
        exact hbC
      rw [List.foldl_cons,
        ih _ (by rw [length_setCell]; exact hR) (rowlen_setCell hC ha _) i j,
        cell_setCell grid _ ha hb i j]
      by_cases hps : ∃ q ∈ ps, ((ro + q.1) % (R : Int)).toNat = i ∧
          ((co + q.2) % (C : Int)).toNat = j
      · rw [if_pos hps, if_pos]
        obtain ⟨q, hq, hq2⟩ := hps
        exact ⟨q, List.mem_cons_of_mem p hq, hq2⟩
      · rw [if_neg hps]
        by_cases hp : ((ro + p.1) % (R : Int)).toNat = i ∧
            ((co + p.2) % (C : Int)).toNat = j
        · rw [if_pos hp, if_pos ⟨p, List.mem_cons_self p ps, hp⟩]
        · rw [if_neg hp, if_neg]
          intro hcon
          obtain ⟨q, hq, hq2⟩ := hcon
          rcases List.mem_cons.mp hq with h | h
          · subst h; exact hp hq2
          · exact hps ⟨q, h, hq2⟩

/-- C10: `place_pattern` sets exactly the cells
`((row_offset + dr) mod rows, (col_offset + dc) mod cols)` live, for the
`(dr, dc)` in the pattern, and changes no other cell; every offset wraps
toroidally, so nothing is dropped, clipped or rejected, for arbitrary
(also negative or out-of-range) integer offsets. -/
theorem place_pattern_spec (grid : List (List Nat)) (pattern : List (Int × Int))
    (ro co : Int) (R C : Nat) (hR : grid.length = R)
    (hC : ∀ row ∈ grid, row.length = C) (hR0 : 0 < R) (hC0 : 0 < C)
    (i j : Nat) :
    GoL.cell (place_pattern grid pattern ro co) i j =
      if ∃ p ∈ pattern, ((ro + p.1) % (R : Int)).toNat = i ∧
          ((co + p.2) % (C : Int)).toNat = j
      then 1 else GoL.cell grid i j := by
  have hne : grid ≠ [] := by
    intro h
    rw [h] at hR
    simp at hR
    omega
  have hhead : (grid.headD []).length = C := by
    rw [List.headD_eq_head?_getD, List.head?_eq_head hne]
    exact hC _ (List.head_mem hne)
  unfold place_pattern
  simp only [hR, hhead]
  exact place_fold ro co R C hR0 hC0 pattern grid hR hC i j

/-- Witness for C10: placing a one-cell pattern with a negative row offset
on a 2 x 2 grid wraps to row 1. -/
theorem place_pattern_spec_witness :
    GoL.cell (place_pattern [[0, 0], [0, 0]] [((-1 : Int), 0)] 0 0) 1 0 = 1 := by
  rw [place_pattern_spec [[0, 0], [0, 0]] [((-1 : Int), 0)] 0 0 2 2 (by decide)
    (by decide) (by decide) (by decide) 1 0]
  decide

/-! ### The pattern catalog lookup (C9) -/
theorem lookup_eq_none_iff {β : Type} (l : List (String × β)) (a : String) :
    List.lookup a l = none ↔ a ∉ l.map Prod.fst := by
  induction l with
  | nil => simp
  | cons p ps ih =>
      rcases p with ⟨k, b⟩
      by_cases h : a = k
      · subst h
        simp [List.lookup]
      · have hbeq : (a == k) = false := beq_eq_false_iff_ne.mpr h
        simp [List.lookup, hbeq, ih, h]

theorem availableNames_eq :
    availableNames = "acorn, beacon, beehive, blinker, block, boat, diehard, glider, gosper_glider_gun, hwss, loaf, lwss, mwss, pentadecathlon, pulsar, r_pentomino, toad, tub" := by decide!

theorem mem_availableNames_decomp :
    ∀ k ∈ patternNames, ∃ a b : String, availableNames = a ++ k ++ b := by
  rw [availableNames_eq]
  intro k hk
  simp only [patternNames, PATTERNS, List.map_cons, List.map_nil,
    List.mem_cons, List.not_mem_nil, or_false] at hk
  rcases hk with rfl | rfl | rfl | rfl | rfl | rfl | rfl | rfl | rfl | rfl |
    rfl | rfl | rfl | rfl | rfl | rfl | rfl | rfl
  · exact ⟨"acorn, beacon, beehive, blinker, ", ", boat, diehard, glider, gosper_glider_gun, hwss, loaf, lwss, mwss, pentadecathlon, pulsar, r_pentomino, toad, tub", by decide⟩
  · exact ⟨"acorn, beacon, ", ", blinker, block, boat, diehard, glider, gosper_glider_gun, hwss, loaf, lwss, mwss, pentadecathlon, pulsar, r_pentomino, toad, tub", by decide⟩
  · exact ⟨"acorn, beacon, beehive, blinker, block, boat, diehard, glider, gosper_glider_gun, hwss, ", ", lwss, mwss, pentadecathlon, pulsar, r_pentomino, toad, tub", by decide⟩
  · exact ⟨"acorn, beacon, beehive, blinker, block, ", ", diehard, glider, gosper_glider_gun, hwss, loaf, lwss, mwss, pentadecathlon, pulsar, r_pentomino, toad, tub", by decide⟩
  · exact ⟨"acorn, beacon, beehive, blinker, block, boat, diehard, glider, gosper_glider_gun, hwss, loaf, lwss, mwss, pentadecathlon, pulsar, r_pentomino, toad, ", "", by decide⟩
  · exact ⟨"acorn, beacon, beehive, ", ", block, boat, diehard, glider, gosper_glider_gun, hwss, loaf, lwss, mwss, pentadecathlon, pulsar, r_pentomino, toad, tub", by decide⟩
  · exact ⟨"acorn, beacon, beehive, blinker, block, boat, diehard, glider, gosper_glider_gun, hwss, loaf, lwss, mwss, pentadecathlon, pulsar, r_pentomino, ", ", tub", by decide⟩
  · exact ⟨"acorn, ", ", beehive, blinker, block, boat, diehard, glider, gosper_glider_gun, hwss, loaf, lwss, mwss, pentadecathlon, pulsar, r_pentomino, toad, tub", by decide⟩
  · exact ⟨"acorn, beacon, beehive, blinker, block, boat, diehard, glider, gosper_glider_gun, hwss, loaf, lwss, mwss, pentadecathlon, ", ", r_pentomino, toad, tub", by decide⟩
  · exact ⟨"acorn, beacon, beehive, blinker, block, boat, diehard, glider, gosper_glider_gun, hwss, loaf, lwss, mwss, ", ", pulsar, r_pentomino, toad, tub", by decide⟩
  · exact ⟨"acorn, beacon, beehive, blinker, block, boat, diehard, ", ", gosper_glider_gun, hwss, loaf, lwss, mwss, pentadecathlon, pulsar, r_pentomino, toad, tub", by decide⟩
  · exact ⟨"acorn, beacon, beehive, blinker, block, boat, diehard, glider, gosper_glider_gun, hwss, loaf, ", ", mwss, pentadecathlon, pulsar, r_pentomino, toad, tub", by decide⟩
  · exact ⟨"acorn, beacon, beehive, blinker, block, boat, diehard, glider, gosper_glider_gun, hwss, loaf, lwss, ", ", pentadecathlon, pulsar, r_pentomino, toad, tub", by decide⟩
  · exact ⟨"acorn, beacon, beehive, blinker, block, boat, diehard, glider, gosper_glider_gun, ", ", loaf, lwss, mwss, pentadecathlon, pulsar, r_pentomino, toad, tub", by decide⟩
  · exact ⟨"acorn, beacon, beehive, blinker, block, boat, diehard, glider, ", ", hwss, loaf, lwss, mwss, pentadecathlon, pulsar, r_pentomino, toad, tub", by decide⟩
  · exact ⟨"acorn, beacon, beehive, blinker, block, boat, diehard, glider, gosper_glider_gun, hwss, loaf, lwss, mwss, pentadecathlon, pulsar, ", ", toad, tub", by decide⟩
  · exact ⟨"acorn, beacon, beehive, blinker, block, boat, ", ", glider, gosper_glider_gun, hwss, loaf, lwss, mwss, pentadecathlon, pulsar, r_pentomino, toad, tub", by decide⟩
  · exact ⟨"", ", beacon, beehive, blinker, block, boat, diehard, glider, gosper_glider_gun, hwss, loaf, lwss, mwss, pentadecathlon, pulsar, r_pentomino, toad, tub", by decide⟩

/-- C9: on positive grid dimensions, `load_pattern` errors exactly on
names outside the catalog; the error message contains the offending name
and every valid pattern name; and every name in the catalog yields a
grid.  The dimension hypotheses confine the statement to the domain where
the embedding agrees with the Python function: at `rows = 0` or
`cols = 0` the Python code raises IndexError (`len(grid[0])`) or
ZeroDivisionError (`% 0`) inside `place_pattern` even for valid names,
a path the total model does not reproduce. -/
theorem load_pattern_error_characterization (name : String) (rows cols : Nat)
    (ro co : Option Int) (hrows : 0 < rows) (hcols : 0 < cols) :
    (name ∉ patternNames →
        load_pattern name rows cols ro co = .error (unknownMessage name) ∧
        (∃ s t, unknownMessage name = s ++ name ++ t) ∧
        (∀ k ∈ patternNames, ∃ s t, unknownMessage name = s ++ k ++ t)) ∧
    (name ∈ patternNames → ∃ g, load_pattern name rows cols ro co = .ok g) ∧
    (∀ e, load_pattern name rows cols ro co = .error e → name ∉ patternNames) := by
  refine ⟨?_, ?_, ?_⟩
  · intro hnot
    have hl : List.lookup name PATTERNS = none :=
      (lookup_eq_none_iff PATTERNS name).mpr hnot
    refine ⟨by simp [load_pattern, hl], ?_, ?_⟩
    · exact ⟨"Unknown pattern '", "'. Available: " ++ availableNames,
        by simp [unknownMessage, String.append_assoc]⟩
    · intro k hk
      obtain ⟨a, b, hab⟩ := mem_availableNames_decomp k hk
      refine ⟨"Unknown pattern '" ++ name ++ "'. Available: " ++ a, b, ?_⟩
      simp [unknownMessage, hab, String.append_assoc]
  · intro hmem
    cases hl : List.lookup name PATTERNS with
    | none =>
        exact absurd hmem ((lookup_eq_none_iff PATTERNS name).mp hl)
    | some pattern =>
        simp only [load_pattern, hl]
        exact ⟨_, rfl⟩
  · intro e he
    cases hl : List.lookup name PATTERNS with
    | none => exact (lookup_eq_none_iff PATTERNS name).mp hl
    | some pattern =>
        rw [load_pattern, hl] at he
        simp at he

/-- Witness for C9: on the 64 x 64 grid the valid name `glider` loads,
and the unknown name `zebra` errors with the documented message. -/
theorem load_pattern_error_characterization_witness :
    (∃ g, load_pattern "glider" 64 64 none none = .ok g) ∧
    load_pattern "zebra" 64 64 none none = .error (unknownMessage "zebra") := by
  constructor
  · exact (load_pattern_error_characterization "glider" 64 64 none none
      (by decide) (by decide)).2.1 (by decide)
  · exact ((load_pattern_error_characterization "zebra" 64 64 none none
      (by decide) (by decide)).1 (by decide)).1

end Patterns

namespace Show

open GoL

/-! ### Overlay never reduces population (C7) -/
theorem sum_set_one_ge (row : List Nat) (h : ∀ v ∈ row, v ≤ 1) :
    ∀ j : Nat, row.sum ≤ (row.set j 1).sum := by
  induction row with
  | nil => intro j; simp
  | cons x xs ih =>
      intro j
      cases j with
      | zero =>
          simp only [List.set_cons_zero, List.sum_cons]
          have hx : x ≤ 1 := h x (List.mem_cons_self x xs)
          omega
      | succ n =>
          simp only [List.set_cons_succ, List.sum_cons]
          have := ih (fun v hv => h v (List.mem_cons_of_mem x hv)) n
          omega

theorem entries_set_one {row : List Nat} (h : ∀ v ∈ row, v ≤ 1) (j : Nat) :
    ∀ v ∈ row.set j 1, v ≤ 1 := by
  intro v hv
  rcases List.mem_or_eq_of_mem_set hv with h1 | h1
  · exact h v h1
  · omega

theorem population_setCell_ge :
    ∀ (g : List (List Nat)), (∀ row ∈ g, ∀ v ∈ row, v ≤ 1) →
      ∀ a b : Nat, population g ≤ population (Patterns.setCell g a b) := by
  intro g
  induction g with
  | nil => intro _ a b; simp [Patterns.setCell]
  | cons r rs ih =>
      intro h a b
      cases a with
      | zero =>
          simp only [Patterns.setCell, List.set_cons_zero, List.getD_cons_zero,
            population, List.map_cons, List.sum_cons]
          have := sum_set_one_ge r (fun v hv => h r (List.mem_cons_self r rs) v hv) b
          omega
      | succ n =>
          have hrs : ∀ row ∈ rs, ∀ v ∈ row, v ≤ 1 :=
            fun row hrow => h row (List.mem_cons_of_mem r hrow)
          have := ih hrs n b
          simp only [Patterns.setCell, List.set_cons_succ, List.getD_cons_succ,
            population, List.map_cons, List.sum_cons] at this ⊢
          omega

theorem entries_setCell {g : List (List Nat)}
    (h : ∀ row ∈ g, ∀ v ∈ row, v ≤ 1) (a b : Nat) :
    ∀ row ∈ Patterns.setCell g a b, ∀ v ∈ row, v ≤ 1 := by
  intro row hrow
  rcases List.mem_or_eq_of_mem_set hrow with h1 | h1
  · exact h row h1
  · subst h1
    intro v hv
    rcases List.mem_or_eq_of_mem_set hv with h2 | h2
    · rw [List.getD_eq_getElem?_getD] at h2
      cases hg : g[a]? with
      | none => rw [hg] at h2; simp at h2
      | some rr =>
          rw [hg] at h2
          exact h rr (List.getElem?_mem hg) v h2
    · omega

theorem overlay_step_population (x_offset y_offset : Int) (q : Nat × Nat)
    (g : List (List Nat)) (hg : ∀ row ∈ g, ∀ v ∈ row, v ≤ 1) :
    population g ≤ population
      (let py := y_offset + (q.1 : Int)
       let px := x_offset + (q.2 : Int)
       if 0 ≤ py ∧ py < (g.length : Int) ∧ 0 ≤ px ∧
           px < ((g.getD py.toNat []).length : Int)
       then Patterns.setCell g py.toNat px.toNat
       else g) := by
  simp only
  split
  · exact population_setCell_ge g hg _ _
  · exact Nat.le_refl _

theorem overlay_step_entries (x_offset y_offset : Int) (q : Nat × Nat)
    (g : List (List Nat)) (hg : ∀ row ∈ g, ∀ v ∈ row, v ≤ 1) :
    ∀ row ∈ (let py := y_offset + (q.1 : Int)
              let px := x_offset + (q.2 : Int)
              if 0 ≤ py ∧ py < (g.length : Int) ∧ 0 ≤ px ∧
                  px < ((g.getD py.toNat []).length : Int)
              then Patterns.setCell g py.toNat px.toNat
              else g), ∀ v ∈ row, v ≤ 1 := by
  simp only
  split
  · exact entries_setCell hg _ _
  · exact hg

/-- C7: the overlay only ever sets cells live, so it never reduces the
population, for every bitmap, grid of 0/1 entries, and offsets. -/
theorem overlay_never_reduces_population (bitmap grid : List (List Nat))
    (x_offset y_offset : Int)
    (h01 : ∀ row ∈ grid, ∀ v ∈ row, v ≤ 1) :
    population grid ≤
      population (overlay_bitmap_to_grid bitmap grid x_offset y_offset) := by
  unfold overlay_bitmap_to_grid
  generalize bitmapPixels bitmap = pixels
  induction pixels generalizing grid with
  | nil => simp
  | cons q qs ih =>
      rw [List.foldl_cons]
      calc population grid
          ≤ population (let py := y_offset + (q.1 : Int)
              let px := x_offset + (q.2 : Int)
              if 0 ≤ py ∧ py < (grid.length : Int) ∧ 0 ≤ px ∧
                  px < ((grid.getD py.toNat []).length : Int)
              then Patterns.setCell grid py.toNat px.toNat
              else grid) := overlay_step_population x_offset y_offset q grid h01
        _ ≤ _ := ih _ (overlay_step_entries x_offset y_offset q grid h01)

/-- Witness for C7: overlaying a one-pixel bitmap onto a small 0/1 grid. -/
theorem overlay_never_reduces_population_witness :
    population [[0, 1], [0, 0]] ≤
      population (overlay_bitmap_to_grid [[1]] [[0, 1], [0, 0]] 0 0) :=
  overlay_never_reduces_population [[1]] [[0, 1], [0, 0]] 0 0 (by decide)

/-! ### The dissolve/cruise state machine (C2, C4, C5) -/
theorem tick_gen_count (bm : List (List Nat)) (move : Int)
    (rands : Nat → Nat → ℚ) (s : ShowState) :
    (tick bm move rands s).gen_count = s.gen_count + 1 := rfl

theorem dissolveUpdate_fst_snd (bm : List (List Nat)) (d : Bool)
    (phase gen stale1 : Nat) (grid1 : List (List Nat)) :
    ((dissolveUpdate DISSOLVE_SCHEDULE DISSOLVE_TOTAL_GENS bm d phase gen
        stale1 grid1).1,
     (dissolveUpdate DISSOLVE_SCHEDULE DISSOLVE_TOTAL_GENS bm d phase gen
        stale1 grid1).2.1) = dStep (d, phase) gen := by
  cases d
  · rfl
  · simp only [dissolveUpdate, dStep]
    split_ifs <;> rfl

theorem tick_proj (bm : List (List Nat)) (move : Int)
    (rands : Nat → Nat → ℚ) (s : ShowState) :
    ((tick bm move rands s).dissolving, (tick bm move rands s).dissolve_phase) =
      dStep (s.dissolving, s.dissolve_phase) (s.gen_count + 1) :=
  dissolveUpdate_fst_snd bm s.dissolving s.dissolve_phase (s.gen_count + 1) _ _

theorem run_gen (g0 bm : List (List Nat)) (moves : Nat → Int)
    (rands : Nat → Nat → Nat → ℚ) : ∀ n, (run g0 bm moves rands n).gen_count = n := by
  intro n
  induction n with
  | zero => rfl
  | succ m ih =>
      show (tick bm (moves m) (rands m) (run g0 bm moves rands m)).gen_count = m + 1
      rw [tick_gen_count, ih]

theorem run_proj (g0 bm : List (List Nat)) (moves : Nat → Int)
    (rands : Nat → Nat → Nat → ℚ) :
    ∀ n, ((run g0 bm moves rands n).dissolving,
          (run g0 bm moves rands n).dissolve_phase) = dRun n := by
  intro n
  induction n with
  | zero => rfl
  | succ m ih =>
      show ((tick bm (moves m) (rands m) (run g0 bm moves rands m)).dissolving,
            (tick bm (moves m) (rands m) (run g0 bm moves rands m)).dissolve_phase) =
        dRun (m + 1)
      rw [tick_proj, ih, run_gen]
      rfl

theorem run_dissolving (g0 bm : List (List Nat)) (moves : Nat → Int)
    (rands : Nat → Nat → Nat → ℚ) (n : Nat) :
    (run g0 bm moves rands n).dissolving = (dRun n).1 :=
  congrArg Prod.fst (run_proj g0 bm moves rands n)

theorem run_phase (g0 bm : List (List Nat)) (moves : Nat → Int)
    (rands : Nat → Nat → Nat → ℚ) (n : Nat) :
    (run g0 bm moves rands n).dissolve_phase = (dRun n).2 :=
  congrArg Prod.snd (run_proj g0 bm moves rands n)

theorem dRun_ge_twelve : ∀ n, 12 ≤ n → dRun n = (false, 5) := by
  intro n
  induction n with
  | zero => omega
  | succ m ih =>
      intro hm
      rcases Nat.lt_or_ge m 12 with h | h
      · have hm11 : m = 11 := by omega
        subst hm11
        decide
      · show dStep (dRun m) (m + 1) = (false, 5)
        rw [ih h]
        rfl

theorem tick_fire_grid (bm : List (List Nat)) (move : Int)
    (rands : Nat → Nat → ℚ) (s : ShowState) (hd : s.dissolving = true)
    (hlt : s.dissolve_phase - 1 < DISSOLVE_SCHEDULE.length)
    (hge : (DISSOLVE_SCHEDULE.getD (s.dissolve_phase - 1) (0, 0)).1 ≤ s.gen_count + 1) :
    (tick bm move rands s).grid =
      overlay_bitmap_to_grid bm (next_generation s.grid) 0
        ((DISSOLVE_SCHEDULE.getD (s.dissolve_phase - 1) (0, 0)).2 : Int) := by
  have hge' := hge
  rw [List.getD_eq_getElem?_getD, List.getElem?_eq_getElem hlt] at hge'
  simp only [Option.getD_some] at hge'
  unfold tick dissolveUpdate
  rw [hd]
  simp [hlt, hge']

theorem tick_circadian (bm : List (List Nat)) (move : Int)
    (rands : Nat → Nat → ℚ) (s : ShowState) :
    (tick bm move rands s).circadian_pos =
      if (tick bm move rands s).dissolving then s.circadian_pos
      else if (s.gen_count + 1) % CIRCADIAN_STRIDE = 0
        then circadian_step s.circadian_pos move else s.circadian_pos := rfl

/-- C2: for every run of the dissolve loop (any seed grid, bitmap and
random draws), schedule entry `k` fires — the phase advances past it and
the overlay is applied — exactly at the first generation reaching its
threshold, never earlier and never twice; and Cruise is entered (the
dissolving flag drops) exactly at generation `DISSOLVE_TOTAL_GENS`, never
before. -/
theorem dissolve_schedule_timing (g0 bm : List (List Nat)) (moves : Nat → Int)
    (rands : Nat → Nat → Nat → ℚ) (k n : Nat)
    (hk : k < DISSOLVE_SCHEDULE.length) :
    (((run g0 bm moves rands n).dissolve_phase = k + 1 ∧
        (run g0 bm moves rands (n + 1)).dissolve_phase = k + 2) ↔
      n + 1 = (DISSOLVE_SCHEDULE.getD k (0, 0)).1) ∧
    (((run g0 bm moves rands n).dissolving = true ∧
        (run g0 bm moves rands (n + 1)).dissolving = false) ↔
      n + 1 = DISSOLVE_TOTAL_GENS) ∧
    (n + 1 = (DISSOLVE_SCHEDULE.getD k (0, 0)).1 →
      (run g0 bm moves rands (n + 1)).grid =
        overlay_bitmap_to_grid bm
          (next_generation (run g0 bm moves rands n).grid) 0
          ((DISSOLVE_SCHEDULE.getD k (0, 0)).2 : Int)) := by
  have hk4 : k < 4 := by simpa [DISSOLVE_SCHEDULE] using hk
  refine ⟨?_, ?_, ?_⟩
  · rw [run_phase, run_phase]
    rcases Nat.lt_or_ge n 12 with h | h
    · interval_cases k <;> interval_cases n <;> decide
    · rw [dRun_ge_twelve n h, dRun_ge_twelve (n + 1) (by omega)]
      have hthr : (DISSOLVE_SCHEDULE.getD k (0, 0)).1 ≤ 10 := by
        interval_cases k <;> decide
      show ((5 = k + 1) ∧ (5 = k + 2)) ↔ n + 1 = (DISSOLVE_SCHEDULE.getD k (0, 0)).1
      omega
  · rw [run_dissolving, run_dissolving]
    rcases Nat.lt_or_ge n 12 with h | h
    · interval_cases n <;> decide
    · rw [dRun_ge_twelve n h, dRun_ge_twelve (n + 1) (by omega)]
      show ((false = true) ∧ (false = false)) ↔ n + 1 = DISSOLVE_TOTAL_GENS
      simp only [DISSOLVE_TOTAL_GENS]
      constructor
      · intro hc
        exact absurd hc.1 (by decide)
      · intro hc
        omega
  · intro hth
    have hone : 1 ≤ (DISSOLVE_SCHEDULE.getD k (0, 0)).1 := by
      interval_cases k <;> decide
    have hdr : dRun n = (true, k + 1) := by
      have hn : n = (DISSOLVE_SCHEDULE.getD k (0, 0)).1 - 1 := by omega
      subst hn
      interval_cases k <;> decide
    have hph : (run g0 bm moves rands n).dissolve_phase = k + 1 := by
      rw [run_phase, hdr]
    have hd : (run g0 bm moves rands n).dissolving = true := by
      rw [run_dissolving, hdr]
    have hlt : (run g0 bm moves rands n).dissolve_phase - 1 <
        DISSOLVE_SCHEDULE.length := by
      rw [hph]
      simp [DISSOLVE_SCHEDULE]
      omega
    have hge : (DISSOLVE_SCHEDULE.getD
        ((run g0 bm moves rands n).dissolve_phase - 1) (0, 0)).1 ≤
        (run g0 bm moves rands n).gen_count + 1 := by
      rw [hph, run_gen]
      simp only [Nat.add_sub_cancel]
      omega
    have hfire := tick_fire_grid bm (moves n) (rands n)
      (run g0 bm moves rands n) hd hlt hge
    show (tick bm (moves n) (rands n) (run g0 bm moves rands n)).grid = _
    rw [hfire, hph]
    simp only [Nat.add_sub_cancel]

/-- Witness for C2 at entry 0 of the schedule, which fires at tick 4. -/
theorem dissolve_schedule_timing_witness :
    ((run [] [] (fun _ => 0) (fun _ _ _ => 0) 3).dissolve_phase = 0 + 1 ∧
        (run [] [] (fun _ => 0) (fun _ _ _ => 0) (3 + 1)).dissolve_phase = 0 + 2) ↔
      3 + 1 = (DISSOLVE_SCHEDULE.getD 0 (0, 0)).1 :=
  (dissolve_schedule_timing [] [] (fun _ => 0) (fun _ _ _ => 0) 0 3
    (by decide)).1

theorem dissolveUpdate_false_beta (schedule : List (Nat × Nat)) (total : Nat)
    (bm : List (List Nat)) (ph gen st1 : Nat) (g1 : List (List Nat)) :
    dissolveUpdate schedule total bm false ph gen st1 g1 = (false, ph, st1, g1) := rfl

/-- C4: on every Cruise tick (a tick whose state is no longer dissolving),
the staleness counter increments when the new population equals the
previous one and resets to zero when it differs; the grid is reseeded by
`random_grid` with the counter cleared exactly when that updated counter
reaches `STALE_RESET_GENS` or the population is zero, and otherwise the
stepped grid is kept with the updated counter. -/
theorem cruise_staleness_reseed (bm : List (List Nat)) (move : Int)
    (rands : Nat → Nat → ℚ) (s : ShowState) (hd : s.dissolving = false) :
    ((STALE_RESET_GENS ≤ (if population (next_generation s.grid) = s.last_pop
          then s.stale_count + 1 else 0) ∨
        population (next_generation s.grid) = 0) →
      (tick bm move rands s).grid = random_grid rands ∧
        (tick bm move rands s).stale_count = 0) ∧
    (¬ (STALE_RESET_GENS ≤ (if population (next_generation s.grid) = s.last_pop
          then s.stale_count + 1 else 0) ∨
        population (next_generation s.grid) = 0) →
      (tick bm move rands s).grid = next_generation s.grid ∧
        (tick bm move rands s).stale_count =
          (if population (next_generation s.grid) = s.last_pop
           then s.stale_count + 1 else 0)) := by
  have hgrid : (tick bm move rands s).grid =
      (if (dissolveUpdate DISSOLVE_SCHEDULE DISSOLVE_TOTAL_GENS bm
            s.dissolving s.dissolve_phase (s.gen_count + 1)
            (if population (next_generation s.grid) = s.last_pop then s.stale_count + 1 else 0)
            (next_generation s.grid)).1 then (dissolveUpdate DISSOLVE_SCHEDULE DISSOLVE_TOTAL_GENS bm
            s.dissolving s.dissolve_phase (s.gen_count + 1)
            (if population (next_generation s.grid) = s.last_pop then s.stale_count + 1 else 0)
            (next_generation s.grid)).2.2.2
       else if STALE_RESET_GENS ≤ (dissolveUpdate DISSOLVE_SCHEDULE DISSOLVE_TOTAL_GENS bm
            s.dissolving s.dissolve_phase (s.gen_count + 1)
            (if population (next_generation s.grid) = s.last_pop then s.stale_count + 1 else 0)
            (next_generation s.grid)).2.2.1 ∨ population (next_generation s.grid) = 0
       then random_grid rands else (dissolveUpdate DISSOLVE_SCHEDULE DISSOLVE_TOTAL_GENS bm
            s.dissolving s.dissolve_phase (s.gen_count + 1)
            (if population (next_generation s.grid) = s.last_pop then s.stale_count + 1 else 0)
            (next_generation s.grid)).2.2.2) := rfl
  have hstale : (tick bm move rands s).stale_count =
      (if (dissolveUpdate DISSOLVE_SCHEDULE DISSOLVE_TOTAL_GENS bm
            s.dissolving s.dissolve_phase (s.gen_count + 1)
            (if population (next_generation s.grid) = s.last_pop then s.stale_count + 1 else 0)
            (next_generation s.grid)).1 then (dissolveUpdate DISSOLVE_SCHEDULE DISSOLVE_TOTAL_GENS bm
            s.dissolving s.dissolve_phase (s.gen_count + 1)
            (if population (next_generation s.grid) = s.last_pop then s.stale_count + 1 else 0)
            (next_generation s.grid)).2.2.1
       else if STALE_RESET_GENS ≤ (dissolveUpdate DISSOLVE_SCHEDULE DISSOLVE_TOTAL_GENS bm
            s.dissolving s.dissolve_phase (s.gen_count + 1)
            (if population (next_generation s.grid) = s.last_pop then s.stale_count + 1 else 0)
            (next_generation s.grid)).2.2.1 ∨ population (next_generation s.grid) = 0
       then 0 else (dissolveUpdate DISSOLVE_SCHEDULE DISSOLVE_TOTAL_GENS bm
            s.dissolving s.dissolve_phase (s.gen_count + 1)
            (if population (next_generation s.grid) = s.last_pop then s.stale_count + 1 else 0)
            (next_generation s.grid)).2.2.1) := rfl
  rw [hd, dissolveUpdate_false_beta] at hgrid hstale
  have bool_if_false_g : ∀ (a b : List (List Nat)),
      (if (false : Bool) = true then a else b) = b := fun a b => rfl
  have bool_if_false_n : ∀ (a b : Nat),
      (if (false : Bool) = true then a else b) = b := fun a b => rfl
  have q1 : ∀ (b c : Nat) (dd : List (List Nat)),
      ((false, b, c, dd) : Bool × Nat × Nat × List (List Nat)).1 = false :=
    fun b c dd => rfl
  have q3 : ∀ (b c : Nat) (dd : List (List Nat)),
      ((false, b, c, dd) : Bool × Nat × Nat × List (List Nat)).2.2.1 = c :=
    fun b c dd => rfl
  have q4 : ∀ (b c : Nat) (dd : List (List Nat)),
      ((false, b, c, dd) : Bool × Nat × Nat × List (List Nat)).2.2.2 = dd :=
    fun b c dd => rfl
  rw [q1, q3, q4] at hgrid
  rw [bool_if_false_g] at hgrid
  rw [q1, q3] at hstale
  rw [bool_if_false_n] at hstale
  constructor <;> intro hcond
  · rw [if_pos hcond] at hgrid hstale
    exact ⟨hgrid, hstale⟩
  · rw [if_neg hcond] at hgrid hstale
    exact ⟨hgrid, hstale⟩

/-- Witness for C4: a cruise tick from an extinct grid reseeds. -/
theorem cruise_staleness_reseed_witness :
    (tick [] 0 (fun _ _ => 0)
      { grid := [], gen_count := 13, stale_count := 0, last_pop := 5,
        dissolving := false, dissolve_phase := 5,
        circadian_pos := CIRCADIAN_CENTER }).grid = random_grid (fun _ _ => 0) ∧
    (tick [] 0 (fun _ _ => 0)
      { grid := [], gen_count := 13, stale_count := 0, last_pop := 5,
        dissolving := false, dissolve_phase := 5,
        circadian_pos := CIRCADIAN_CENTER }).stale_count = 0 :=
  (cruise_staleness_reseed [] 0 (fun _ _ => 0)
    { grid := [], gen_count := 13, stale_count := 0, last_pop := 5,
      dissolving := false, dissolve_phase := 5,
      circadian_pos := CIRCADIAN_CENTER } rfl).1 (Or.inr (by decide!))

/-- C5 (amended): in the hardware script `game_of_life.py`, every tick
taken from a dissolving state leaves the circadian index unchanged — the
random walk is frozen during the Dissolve phase. -/
theorem dissolve_freezes_circadian (g0 bm : List (List Nat))
    (moves : Nat → Int) (rands : Nat → Nat → Nat → ℚ) (n : Nat)
    (hd : (run g0 bm moves rands n).dissolving = true) :
    (run g0 bm moves rands (n + 1)).circadian_pos =
      (run g0 bm moves rands n).circadian_pos := by
  have hdr : (dRun n).1 = true := by
    rw [← run_dissolving g0 bm moves rands n]
    exact hd
  have hn : n < 12 := by
    by_contra hcon
    rw [dRun_ge_twelve n (by omega)] at hdr
    exact absurd hdr (by decide)
  show (tick bm (moves n) (rands n) (run g0 bm moves rands n)).circadian_pos = _
  rw [tick_circadian]
  rw [show (tick bm (moves n) (rands n) (run g0 bm moves rands n)).dissolving =
    (run g0 bm moves rands (n + 1)).dissolving from rfl]
  rw [run_dissolving g0 bm moves rands (n + 1), run_gen]
  rcases Nat.lt_or_ge n 11 with h11 | h11
  · have hT : (dRun (n + 1)).1 = true := by interval_cases n <;> decide
    rw [hT, if_pos rfl]
  · have hn11 : n = 11 := by omega
    subst hn11
    rw [show (dRun 12).1 = false from by decide,
      if_neg (by decide), if_neg (by decide)]

/-- Witness for C5 (amended) at the first tick of the run. -/
theorem dissolve_freezes_circadian_witness :
    (run [] [] (fun _ => 0) (fun _ _ _ => 0) (0 + 1)).circadian_pos =
      (run [] [] (fun _ => 0) (fun _ _ _ => 0) 0).circadian_pos :=
  dissolve_freezes_circadian [] [] (fun _ => 0) (fun _ _ _ => 0) 0 rfl

end Show

namespace Preview

open GoL Show

theorem simulation_step_circadian (bm : List (List Nat)) (move : Int)
    (rands : Nat → Nat → ℚ) (s : ShowState) :
    (simulation_step bm move rands s).circadian_pos =
      if (s.gen_count + 1) % CIRCADIAN_STRIDE = 0
      then circadian_step s.circadian_pos move else s.circadian_pos := rfl

/-- C5 counterexample: in the preview script `preview.py`, a tick taken
during the Dissolve phase (generation 7 to 8, dissolving before and
after) moves the circadian index, because `simulation_step` runs the
random walk every `CIRCADIAN_STRIDE` generations in every phase. -/
theorem preview_steps_circadian_during_dissolve :
    ({ grid := [], gen_count := 7, stale_count := 0, last_pop := 0,
       dissolving := true, dissolve_phase := 1,
       circadian_pos := CIRCADIAN_CENTER } : ShowState).dissolving = true ∧
    (simulation_step [] (-1) (fun _ _ => 0)
      { grid := [], gen_count := 7, stale_count := 0, last_pop := 0,
        dissolving := true, dissolve_phase := 1,
        circadian_pos := CIRCADIAN_CENTER }).dissolving = true ∧
    (simulation_step [] (-1) (fun _ _ => 0)
      { grid := [], gen_count := 7, stale_count := 0, last_pop := 0,
        dissolving := true, dissolve_phase := 1,
        circadian_pos := CIRCADIAN_CENTER }).circadian_pos ≠
      ({ grid := [], gen_count := 7, stale_count := 0, last_pop := 0,
         dissolving := true, dissolve_phase := 1,
         circadian_pos := CIRCADIAN_CENTER } : ShowState).circadian_pos := by
  refine ⟨rfl, rfl, ?_⟩
  rw [simulation_step_circadian]
  decide

end Preview

namespace Glider

open GoL Patterns

theorem glider_step1 :
    next_generation (place_pattern (empty_grid GoL.ROWS GoL.COLS) GLIDER 0 0) =
      gliderGen1 := by decide!

theorem glider_step2 : next_generation gliderGen1 = gliderGen2 := by decide!

theorem glider_step3 : next_generation gliderGen2 = gliderGen3 := by decide!

theorem glider_step4 :
    next_generation gliderGen3 = place_pattern (empty_grid GoL.ROWS GoL.COLS) GLIDER 1 1 := by
  decide!

/-- C6: on the 64 x 64 all-dead grid with the standard glider placed at
offset `(0, 0)`, four applications of `next_generation` yield exactly the
glider translated by `(1, 1)` (coordinates modulo the grid dimensions, as
`place_pattern` wraps) — so the live-cell sets agree. -/
theorem glider_four_generations :
    next_generation (next_generation (next_generation (next_generation
      (place_pattern (empty_grid GoL.ROWS GoL.COLS) GLIDER 0 0)))) =
      place_pattern (empty_grid GoL.ROWS GoL.COLS) GLIDER 1 1 := by
  rw [glider_step1, glider_step2, glider_step3, glider_step4]

end Glider
